import Mathlib

/-!
Verification development for the errbot bootstrap module
(`errbot/bootstrap.py`): configuration normalization
(`bot_config_defaults`), the bootstrap orchestrator (`setup_bot`),
restore (`restore_bot_from_backup`) and storage resolution
(`get_storage_plugin`), shallowly embedded in Lean.

Python attribute records (the `config` module object) are embedded as
association lists from attribute names to `Value`s; external
collaborators that live outside this module (plugin managers, the
logging stack, the filesystem) are abstracted by an environment `Env`
whose fields record the outcome of each collaborator call
(normal return, raised exception, or process exit).
-/

set_option autoImplicit false

namespace Errbot

/-- Python values as far as the bootstrap module observes them:
strings, booleans, integers, lists, tuples, dicts, `None`, and opaque
collaborator objects (storage handles, managers, ...). -/
inductive Value where
  | vStr : String → Value
  | vBool : Bool → Value
  | vNat : Nat → Value
  | vList : List Value → Value
  | vTuple : List Value → Value
  | vDict : List (String × Value) → Value
  | vNone : Value
  | vObj : String → Value

/-- A Python object attribute record: ordered association list of
attribute name to value (`config` module objects, in this module). -/
abbrev Config := List (String × Value)

/-- Python `getattr(c, key)` returning `none` for a missing attribute. -/
def getattr_ : Config → String → Option Value
  | [], _ => none
  | kv :: rest, key => if kv.1 = key then some kv.2 else getattr_ rest key

/-- Python `hasattr(c, key)`. -/
def hasattr (c : Config) (key : String) : Bool :=
  (getattr_ c key).isSome

/-- Python `getattr(c, key, default)`. -/
def getattrD (c : Config) (key : String) (d : Value) : Value :=
  (getattr_ c key).getD d

/-- One `if not hasattr(config, k): config.k = v` statement of
`bot_config_defaults` (bootstrap.py lines 24-77, 80-83): sets the
attribute only when it is absent. -/
def defaultIfAbsent (c : Config) (k : String) (v : Value) : Config :=
  if hasattr c k then c else c ++ [(k, v)]

/-- The 27 `(option, default)` pairs checked by `bot_config_defaults`
before the `BOT_ADMINS` check, in source order (bootstrap.py
lines 24-77). -/
def preAdminDefaults : List (String × Value) :=
  [ ("ACCESS_CONTROLS_DEFAULT", Value.vDict []),
    ("ACCESS_CONTROLS", Value.vDict []),
    ("ACCESS_CONTROLS_USE_SLACK_USERID", Value.vBool false),
    ("HIDE_RESTRICTED_COMMANDS", Value.vBool false),
    ("HIDE_RESTRICTED_ACCESS", Value.vBool false),
    ("BOT_PREFIX_OPTIONAL_ON_CHAT", Value.vBool false),
    ("BOT_PREFIX", Value.vStr "!"),
    ("BOT_ALT_PREFIXES", Value.vTuple []),
    ("BOT_ALT_PREFIX_SEPARATORS", Value.vTuple []),
    ("BOT_ALT_PREFIX_CASEINSENSITIVE", Value.vBool false),
    ("BOT_LOG_LOGSTASH_PORT", Value.vNat 5050),
    ("BOT_LOG_LOGSTASH_HOST", Value.vStr "127.0.0.1"),
    ("BOT_LOG_LOGSTASH_APP", Value.vStr "errbot"),
    ("BOT_LOG_LOGSTASH_ENV", Value.vStr "development"),
    ("DIVERT_TO_PRIVATE", Value.vTuple []),
    ("DIVERT_TO_THREAD", Value.vTuple []),
    ("MESSAGE_SIZE_LIMIT", Value.vNat 10000),
    ("GROUPCHAT_NICK_PREFIXED", Value.vBool false),
    ("AUTOINSTALL_DEPS", Value.vBool true),
    ("SUPPRESS_CMD_NOT_FOUND", Value.vBool false),
    ("BOT_ASYNC", Value.vBool true),
    ("BOT_ASYNC_POOLSIZE", Value.vNat 10),
    ("CHATROOM_PRESENCE", Value.vTuple []),
    ("CHATROOM_RELAY", Value.vTuple []),
    ("REVERSE_CHATROOM_RELAY", Value.vTuple []),
    ("CHATROOM_FN", Value.vStr "Errbot"),
    ("TEXT_DEMO_MODE", Value.vBool true) ]

/-- Apply a sequence of `defaultIfAbsent` statements in order. -/
def applyDefaults (ds : List (String × Value)) (config : Config) : Config :=
  ds.foldl (fun c kv => defaultIfAbsent c kv.1 kv.2) config

/-- The record produced by `bot_config_defaults` on the success path:
after the 27 pre-admin defaults, the `TEXT_COLOR_THEME` default is
applied, then the `BOT_ADMINS_NOTIFICATIONS` default (which copies the
current `config.BOT_ADMINS`; the `getD Value.vNone` is unreachable
filler, since this path requires `BOT_ADMINS` to be present). -/
def bcdOkConfig (config : Config) : Config :=
  defaultIfAbsent
    (defaultIfAbsent (applyDefaults preAdminDefaults config)
      "TEXT_COLOR_THEME" (Value.vStr "light"))
    "BOT_ADMINS_NOTIFICATIONS"
    ((getattr_ (defaultIfAbsent (applyDefaults preAdminDefaults config)
        "TEXT_COLOR_THEME" (Value.vStr "light")) "BOT_ADMINS").getD
      Value.vNone)

/-- Python function `bot_config_defaults(config)` (bootstrap.py lines 23-83): the 27
pre-admin `if not hasattr` defaults in order, then the `BOT_ADMINS`
presence check (raising `ValueError` when absent — the error carries
the config state at raise time, since the Python mutations have already
happened in place), then the `TEXT_COLOR_THEME` default and the
`BOT_ADMINS_NOTIFICATIONS` default (which copies `config.BOT_ADMINS`). -/
def bot_config_defaults (config : Config) : Except (String × Config) Config :=
  if hasattr (applyDefaults preAdminDefaults config) "BOT_ADMINS" then
    .ok (bcdOkConfig config)
  else
    .error ("BOT_ADMINS missing from config.py.",
            applyDefaults preAdminDefaults config)

/-- The configuration record as left behind by `bot_config_defaults`,
whether it returned normally or raised (in Python the record is mutated
in place, so the partially-defaulted state survives the raise). -/
def bcdFinal (config : Config) : Config :=
  match bot_config_defaults config with
  | .ok c => c
  | .error (_, c) => c

/-- Modelled from the spec: the runtime object (`ErrBot` instance,
defined in `errbot/core.py` which is not part of this repository
snapshot). Per spec §3 "Runtime Object", it owns one storage handle, one
repo-manager handle and one extension-manager handle; `close_storage`
closes the storage layer; the `repos in bot` membership test is modelled by
the abstract key list `keys`. `closeCount` counts `close_storage`
invocations so that "closed exactly once" is observable. -/
structure Bot where
  storage : Option Value := none
  repoManager : Option Value := none
  pluginManager : Option Value := none
  backendStorageInitialized : Bool := false
  pluginErrorsDuringStartup : Option String := none
  storageClosed : Bool := false
  closeCount : Nat := 0
  keys : List String := []

/-- Modelled from the spec: `bot.close_storage()` (in `errbot/core.py`,
outside this snapshot) — "tears down the storage layer" (§4.7). -/
def close_storage (b : Bot) : Bot :=
  { b with storageClosed := true, closeCount := b.closeCount + 1 }

/-- Outcome of `exec`-ing the restore script against the bot: either a
normal completion with the bot state it left behind, or a raised
exception together with the bot state at raise time (the script mutates
the live object, so partial mutations survive the raise). -/
inductive ExecResult where
  | ok : Bot → ExecResult
  | raised : String → Bot → ExecResult

/-- Observable steps of the bootstrap, recorded as a trace. -/
inductive Event where
  | normalizeConfig
  | configureLogging
  | resolveStorage
  | prepareDir
  | normalizeLists
  | resolveBackend
  | constructRepoManager
  | loadBackendPlugin
  | constructPluginManager
  | attachStorage
  | attachRepoManager
  | attachPluginManager
  | initBackendStorage
  | checkRepos
  | execRestoreScript
  | closeStorage
  | loadExtensions
  | logError : String → Event
deriving DecidableEq

/-- Outcome of one external collaborator call: normal return, raised
exception (propagating to the caller), or direct process exit
(`exit(-1)` / `sys.exit`, which as `SystemExit` is not caught by
`except Exception`). -/
inductive ExtResult (α : Type) where
  | ok : α → ExtResult α
  | raised : String → ExtResult α
  | exited : Int → ExtResult α

/-- Outcome of `setup_bot` as seen by its caller. -/
inductive Outcome where
  | returned : Bot → Outcome
  | exited : Int → Outcome
  | raised : String → Outcome

/-- Behaviours of the external collaborators called by `setup_bot`,
one field per call site, in call order. Each field yields the outcome
of that call (the collaborators are outside this repository snapshot). -/
structure Env where
  /-- Lines 92-175: `format_logs` / file handler / logstash / sentry /
  `logger.setLevel(config.BOT_LOG_LEVEL)` block, as one step. -/
  loggingStep : ExtResult Unit
  /-- Call `BackendPluginManager(..., errbot.storage, ...).load_plugin()`
  inside `get_storage_plugin`, as a function of the storage name and
  the extra storage-plugin directory. -/
  storagePlugin : Value → Value → ExtResult Value
  /-- Result of `path.exists(botplugins_dir)` (line 181). -/
  dirExists : Bool
  /-- Call `makedirs(botplugins_dir, mode=0o755)` (line 182). -/
  makedirs : ExtResult Unit
  /-- Call `BackendPluginManager(config, errbot.backends, backend_name,
  ErrBot, CORE_BACKENDS, extra_backend)` (lines 193-198), as a function
  of the backend name and the normalized extra-backend list. -/
  backendResolve : String → Value → ExtResult Unit
  /-- Call `BotRepoManager(storage_plugin, botplugins_dir, plugin_indexes)`
  (lines 202-204), as a function of the storage handle and the
  normalized plugin-index list. -/
  repoManagerCtor : Value → Value → ExtResult Value
  /-- Call `backendpm.load_plugin()` (line 207): constructs the runtime
  object. -/
  loadBackendPlugin : ExtResult Bot
  /-- Call `BotPluginManager(storage_plugin, ...)` (lines 208-213), as a
  function of the storage handle. -/
  botPMCtor : Value → ExtResult Value
  /-- Call `bot.initialize_backend_storage()` (line 217). -/
  initBackendStorage : ExtResult Unit
  /-- Call `bot.plugin_manager.update_plugin_places(repo_manager.get_all_repos_paths())`
  (line 230): yields the extension-identifier → error-message mapping
  (insertion-ordered, as a list of pairs). -/
  updatePluginPlaces : ExtResult (List (String × String))

/-- Default plugin index URL (bootstrap.py line 20). -/
def PLUGIN_DEFAULT_INDEX : String := "https://errbot.io/repos.json"

/-- Modelled from the spec: `PLUGINS_SUBDIR` is imported from
`errbot/utils.py` (outside this snapshot); its concrete value is not
observable by any claim, only that it names the extension-data
subdirectory. -/
def PLUGINS_SUBDIR : String := "plugins"

/-- Model of `os.path.join` for the one two-component use in this module. -/
def pathJoin (a b : String) : String := a ++ "/" ++ b

/-- Lines 184-186: `plugin_indexes = getattr(config,
BOT_PLUGIN_INDEXES, (PLUGIN_DEFAULT_INDEX,))`, with a bare string
promoted to a one-element tuple. Pure function of the config. -/
def normalizedPluginIndexes (config : Config) : Value :=
  let pi := getattrD config "BOT_PLUGIN_INDEXES"
    (Value.vTuple [Value.vStr PLUGIN_DEFAULT_INDEX])
  match pi with
  | .vStr s => .vTuple [.vStr s]
  | v => v

/-- Lines 189-191: `extra_backend = getattr(config,
BOT_EXTRA_BACKEND_DIR, [])`, with a bare string promoted to a
one-element list. Pure function of the config. -/
def normalizedExtraBackend (config : Config) : Value :=
  let eb := getattrD config "BOT_EXTRA_BACKEND_DIR" (Value.vList [])
  match eb with
  | .vStr s => .vList [.vStr s]
  | v => v

/-- Python function `get_storage_plugin(config)` (bootstrap.py lines 255-266): reads
`STORAGE` (default `Shelf`) and `BOT_EXTRA_STORAGE_PLUGINS_DIR`
(default `None`) from the config and resolves/loads the storage plugin
through the `BackendPluginManager` collaborator. -/
def get_storage_plugin (env : Env) (config : Config) : ExtResult Value :=
  let storage_name := getattrD config "STORAGE" (Value.vStr "Shelf")
  let extra := getattrD config "BOT_EXTRA_STORAGE_PLUGINS_DIR" Value.vNone
  env.storagePlugin storage_name extra

/-- Python function `restore_bot_from_backup(backup_filename, bot=bot, log=log)`
(bootstrap.py lines 240-252): `exec` the script with `bot` bound, then
— only on the line after the `with` block, with no `try/finally` —
call `bot.close_storage()`. A raise inside `exec` therefore propagates
without `close_storage` ever running. Also returns the event trace. -/
def restore_bot_from_backup (script : Bot → ExecResult) (bot : Bot) :
    ExecResult × List Event :=
  match script bot with
  | .ok b => (.ok (close_storage b), [.execRestoreScript, .closeStorage])
  | .raised e b => (.raised e b, [.execRestoreScript])

/-- The body of the `try:` block of `setup_bot` (bootstrap.py lines
206-234): load the backend plugin into the runtime object, construct
the plugin manager (reading `config.BOT_EXTRA_PLUGIN_DIR`, which has no
default), attach storage, repo manager and plugin manager in that
order, initialize backend storage, then either run the restore branch
(lines 220-228) or load extensions and return the bot (lines 230-234).
A `.raised` outcome here is an exception escaping the block into the
`except Exception` handler. -/
def setup_try (env : Env) (config : Config) (storage_plugin : Value)
    (repo_manager : Value) (restore : Option (Bot → ExecResult)) :
    Outcome × List Event :=
  match env.loadBackendPlugin with
  | .raised e => (.raised e, [.loadBackendPlugin])
  | .exited c => (.exited c, [.loadBackendPlugin])
  | .ok bot =>
  match getattr_ config "BOT_EXTRA_PLUGIN_DIR" with
  | none => (.raised "AttributeError: BOT_EXTRA_PLUGIN_DIR",
             [.loadBackendPlugin, .constructPluginManager])
  | some _ =>
  match env.botPMCtor storage_plugin with
  | .raised e => (.raised e, [.loadBackendPlugin, .constructPluginManager])
  | .exited c => (.exited c, [.loadBackendPlugin, .constructPluginManager])
  | .ok botpm =>
  let bot := { bot with storage := some storage_plugin }
  let bot := { bot with repoManager := some repo_manager }
  let bot := { bot with pluginManager := some botpm }
  let tr := [Event.loadBackendPlugin, Event.constructPluginManager,
             Event.attachStorage, Event.attachRepoManager,
             Event.attachPluginManager, Event.initBackendStorage]
  match env.initBackendStorage with
  | .raised e => (.raised e, tr)
  | .exited c => (.exited c, tr)
  | .ok _ =>
  let bot := { bot with backendStorageInitialized := true }
  match restore with
  | some script =>
    if bot.keys.contains "repos" then
      (.exited (-1),
       tr ++ [Event.checkRepos,
              Event.logError "You cannot restore onto a non empty bot."])
    else
      match restore_bot_from_backup script bot with
      | (.ok _, ev) => (.exited 0, tr ++ [Event.checkRepos] ++ ev)
      | (.raised e _, ev) => (.raised e, tr ++ [Event.checkRepos] ++ ev)
  | none =>
  let tr := tr ++ [Event.loadExtensions]
  match env.updatePluginPlaces with
  | .raised e => (.raised e, tr)
  | .exited c => (.exited c, tr)
  | .ok errors =>
  if errors.isEmpty then
    (.returned bot, tr)
  else
    let agg := String.intercalate "\n" (errors.map Prod.snd)
    (.returned { bot with pluginErrorsDuringStartup := some agg },
     tr ++ [Event.logError ("Some plugins failed to load:\n" ++ agg)])

/-- Python function `setup_bot(backend_name, logger, config, restore)` (bootstrap.py
lines 86-237). Note which steps run OUTSIDE the `try:` block that
begins at line 206: config normalization, the logging block, storage
resolution, the data-directory preparation, the pure list
normalizations, backend resolution and repo-manager construction; an
exception there propagates to the caller. Inside the block, an escaping
exception is logged and converted to `exit(-1)`; `sys.exit` raises
`SystemExit`, which `except Exception` does not catch, so the restore
own exits pass through. -/
def setup_bot (env : Env) (backend_name : String) (config0 : Config)
    (restore : Option (Bot → ExecResult)) : Outcome × List Event :=
  match bot_config_defaults config0 with
  | .error (e, _) => (.raised e, [.normalizeConfig])
  | .ok config =>
  let tr := [Event.normalizeConfig, Event.configureLogging]
  match env.loggingStep with
  | .raised e => (.raised e, tr)
  | .exited c => (.exited c, tr)
  | .ok _ =>
  let tr := tr ++ [Event.resolveStorage]
  match get_storage_plugin env config with
  | .raised e => (.raised e, tr)
  | .exited c => (.exited c, tr)
  | .ok storage_plugin =>
  match getattr_ config "BOT_DATA_DIR" with
  | none => (.raised "AttributeError: BOT_DATA_DIR", tr)
  | some _ =>
  let tr := tr ++ [Event.prepareDir]
  match (if env.dirExists then ExtResult.ok () else env.makedirs) with
  | .raised e => (.raised e, tr)
  | .exited c => (.exited c, tr)
  | .ok _ =>
  let tr := tr ++ [Event.normalizeLists]
  let plugin_indexes := normalizedPluginIndexes config
  let extra_backend := normalizedExtraBackend config
  let tr := tr ++ [Event.resolveBackend]
  match env.backendResolve backend_name extra_backend with
  | .raised e => (.raised e, tr)
  | .exited c => (.exited c, tr)
  | .ok _ =>
  let tr := tr ++ [Event.constructRepoManager]
  match env.repoManagerCtor storage_plugin plugin_indexes with
  | .raised e => (.raised e, tr)
  | .exited c => (.exited c, tr)
  | .ok repo_manager =>
  match setup_try env config storage_plugin repo_manager restore with
  | (.raised _, tr2) =>
    (.exited (-1),
     tr ++ tr2 ++ [Event.logError "Unable to load or configure the backend."])
  | (o, tr2) => (o, tr ++ tr2)

/-- A bot fresh out of `backendpm.load_plugin()`: nothing attached. -/
def emptyBot : Bot := {}

/-- A bot whose storage already holds a `repos` entry, so that
the `repos in bot` test is true. -/
def reposBot : Bot := { emptyBot with keys := ["repos"] }

/-- The runtime object as fully wired by `okEnv` below: storage, repo
manager and plugin manager attached, backend storage initialized. -/
def wiredBot : Bot :=
  { emptyBot with
      storage := some (Value.vObj "storage"),
      repoManager := some (Value.vObj "repo_manager"),
      pluginManager := some (Value.vObj "botpm"),
      backendStorageInitialized := true }

/-- A minimal complete configuration: the required `BOT_ADMINS`,
plus the two attributes `setup_bot` reads without a default
(`BOT_DATA_DIR`, `BOT_EXTRA_PLUGIN_DIR`). -/
def goodConfig : Config :=
  [ ("BOT_ADMINS", Value.vList [Value.vStr "admin1"]),
    ("BOT_DATA_DIR", Value.vStr "/data"),
    ("BOT_EXTRA_PLUGIN_DIR", Value.vNone) ]

/-- An environment in which every external collaborator call
succeeds and extension loading reports no errors. -/
def okEnv : Env where
  loggingStep := .ok ()
  storagePlugin := fun _ _ => .ok (Value.vObj "storage")
  dirExists := true
  makedirs := .ok ()
  backendResolve := fun _ _ => .ok ()
  repoManagerCtor := fun _ _ => .ok (Value.vObj "repo_manager")
  loadBackendPlugin := .ok emptyBot
  botPMCtor := fun _ => .ok (Value.vObj "botpm")
  initBackendStorage := .ok ()
  updatePluginPlaces := .ok []

theorem getattr_append_left (c l : Config) (key : String) (x : Value)
    (h : getattr_ c key = some x) : getattr_ (c ++ l) key = some x := by
  induction c with
  | nil => exact absurd h (by simp [getattr_])
  | cons kv rest ih =>
      rw [List.cons_append]
      by_cases hk : kv.1 = key
      · simpa [getattr_, hk] using h
      · simp only [getattr_, if_neg hk] at h ⊢
        exact ih h

theorem getattr_append_right (c l : Config) (key : String)
    (h : getattr_ c key = none) : getattr_ (c ++ l) key = getattr_ l key := by
  induction c with
  | nil => simp
  | cons kv rest ih =>
      rw [List.cons_append]
      by_cases hk : kv.1 = key
      · simp [getattr_, hk] at h
      · simp only [getattr_, if_neg hk] at h ⊢
        exact ih h

/-- Effect of `defaultIfAbsent` at an arbitrary key: the key being set receives
its old value if present and the default otherwise; all other keys are
untouched. -/
theorem getattr_defaultIfAbsent (c : Config) (k : String) (v : Value)
    (key : String) :
    getattr_ (defaultIfAbsent c k v) key =
      if k = key then some ((getattr_ c k).getD v) else getattr_ c key := by
  unfold defaultIfAbsent hasattr
  cases hc : getattr_ c k with
  | some x =>
      rw [if_pos (show (some x).isSome = true from rfl)]
      by_cases hk : k = key
      · subst hk; simp [hc]
      · rw [if_neg hk]
  | none =>
      rw [if_neg (show ¬(none : Option Value).isSome = true by simp)]
      by_cases hk : k = key
      · subst hk
        rw [getattr_append_right c _ _ hc, if_pos rfl]
        simp [getattr_]
      · rw [if_neg hk]
        cases hck : getattr_ c key with
        | some y => exact getattr_append_left c _ _ _ hck
        | none =>
            rw [getattr_append_right c _ _ hck]
            simp [getattr_, hk]

theorem getattr_defaultIfAbsent_some (c : Config) (k : String) (v : Value)
    (key : String) (x : Value) (h : getattr_ c key = some x) :
    getattr_ (defaultIfAbsent c k v) key = some x := by
  rw [getattr_defaultIfAbsent]
  by_cases hk : k = key
  · subst hk; simp [h]
  · rw [if_neg hk]; exact h

/-- Values already present in the record survive any run of defaults. -/
theorem getattr_applyDefaults_some (ds : List (String × Value)) (c : Config)
    (key : String) (x : Value) (h : getattr_ c key = some x) :
    getattr_ (applyDefaults ds c) key = some x := by
  induction ds generalizing c with
  | nil => exact h
  | cons d rest ih =>
      unfold applyDefaults at ih ⊢
      rw [List.foldl_cons]
      exact ih _ (getattr_defaultIfAbsent_some _ _ _ _ _ h)

/-- Keys not mentioned in the default list are untouched by it. -/
theorem getattr_applyDefaults_not_mem (ds : List (String × Value)) (c : Config)
    (key : String) (h : ∀ kv ∈ ds, kv.1 ≠ key) :
    getattr_ (applyDefaults ds c) key = getattr_ c key := by
  induction ds generalizing c with
  | nil => rfl
  | cons d rest ih =>
      unfold applyDefaults at ih ⊢
      rw [List.foldl_cons,
          ih _ (fun kv hkv => h kv (List.mem_cons_of_mem _ hkv)),
          getattr_defaultIfAbsent, if_neg (h d (List.mem_cons_self _ _))]

/-- A key whose first occurrence in the default list carries default
`v` ends up holding its old value if one was present and `v`
otherwise. -/
theorem getattr_applyDefaults_lookup (ds : List (String × Value)) (c : Config)
    (key : String) (v : Value) (h : getattr_ ds key = some v) :
    getattr_ (applyDefaults ds c) key = some ((getattr_ c key).getD v) := by
  induction ds generalizing c with
  | nil => simp [getattr_] at h
  | cons d rest ih =>
      unfold applyDefaults at ih ⊢
      rw [List.foldl_cons]
      by_cases hk : d.1 = key
      · unfold getattr_ at h
        rw [if_pos hk] at h
        injection h with hv
        subst hv
        apply getattr_applyDefaults_some
        rw [getattr_defaultIfAbsent, if_pos hk, hk]
      · unfold getattr_ at h
        rw [if_neg hk] at h
        rw [ih _ h, getattr_defaultIfAbsent, if_neg hk]

theorem preAdmin_no_admins : ∀ kv ∈ preAdminDefaults, kv.1 ≠ "BOT_ADMINS" := by
  decide

theorem preAdmin_no_color : ∀ kv ∈ preAdminDefaults, kv.1 ≠ "TEXT_COLOR_THEME" := by
  decide

theorem preAdmin_no_notif : ∀ kv ∈ preAdminDefaults,
    kv.1 ≠ "BOT_ADMINS_NOTIFICATIONS" := by
  decide

theorem hasattr_eq_false_iff (c : Config) (key : String) :
    hasattr c key = false ↔ getattr_ c key = none := by
  unfold hasattr
  cases getattr_ c key <;> simp

/-- When `BOT_ADMINS` is absent, `bot_config_defaults` raises, leaving
the record in the state produced by the 27 pre-admin defaults. -/
theorem bot_config_defaults_missing_admins (config : Config)
    (h : hasattr config "BOT_ADMINS" = false) :
    bot_config_defaults config =
      .error ("BOT_ADMINS missing from config.py.",
              applyDefaults preAdminDefaults config) := by
  have hget : getattr_ config "BOT_ADMINS" = none :=
    (hasattr_eq_false_iff _ _).mp h
  have hA : hasattr (applyDefaults preAdminDefaults config) "BOT_ADMINS" = false := by
    rw [hasattr_eq_false_iff,
        getattr_applyDefaults_not_mem _ _ _ preAdmin_no_admins]
    exact hget
  unfold bot_config_defaults
  rw [if_neg (by simp [hA])]

theorem bcdFinal_missing_admins (config : Config)
    (h : hasattr config "BOT_ADMINS" = false) :
    bcdFinal config = applyDefaults preAdminDefaults config := by
  unfold bcdFinal
  rw [bot_config_defaults_missing_admins config h]

/-- When `BOT_ADMINS` is present, `bot_config_defaults` succeeds and
returns the fully defaulted record. -/
theorem bot_config_defaults_ok (config : Config)
    (h : hasattr config "BOT_ADMINS" = true) :
    bot_config_defaults config = .ok (bcdFinal config) := by
  have hx : ∃ x, getattr_ config "BOT_ADMINS" = some x := by
    unfold hasattr at h
    cases hg : getattr_ config "BOT_ADMINS" with
    | none => rw [hg] at h; simp at h
    | some y => exact ⟨y, rfl⟩
  obtain ⟨x, hx⟩ := hx
  have hA : hasattr (applyDefaults preAdminDefaults config) "BOT_ADMINS" = true := by
    unfold hasattr
    rw [getattr_applyDefaults_some _ _ _ _ hx]
    rfl
  unfold bcdFinal bot_config_defaults
  rw [if_pos hA]

/-- C6 core: any attribute present before normalization holds the same
value afterwards, in both the success and the failure state. -/
theorem getattr_bcdFinal_some (config : Config) (key : String) (x : Value)
    (h : getattr_ config key = some x) :
    getattr_ (bcdFinal config) key = some x := by
  have h1 : getattr_ (applyDefaults preAdminDefaults config) key = some x :=
    getattr_applyDefaults_some _ _ _ _ h
  unfold bcdFinal bot_config_defaults
  by_cases hA : hasattr (applyDefaults preAdminDefaults config) "BOT_ADMINS" = true
  · rw [if_pos hA]
    exact getattr_defaultIfAbsent_some _ _ _ _ _
      (getattr_defaultIfAbsent_some _ _ _ _ _ h1)
  · rw [if_neg hA]
    exact h1

/-- Claim C4 (confirmed): for every configuration record lacking
`BOT_ADMINS`, normalization fails with the configuration error
"BOT_ADMINS missing from config.py.", `setup_bot` propagates that
error, and no plugin resolution (neither storage nor chat backend) is
attempted: the trace stops at the normalization step. -/
theorem claim_C4 (env : Env) (backend_name : String)
    (restore : Option (Bot → ExecResult)) (config : Config)
    (h : hasattr config "BOT_ADMINS" = false) :
    bot_config_defaults config =
      .error ("BOT_ADMINS missing from config.py.",
              applyDefaults preAdminDefaults config) ∧
    (setup_bot env backend_name config restore).1 =
      .raised "BOT_ADMINS missing from config.py." ∧
    (setup_bot env backend_name config restore).2 = [Event.normalizeConfig] ∧
    Event.resolveStorage ∉ (setup_bot env backend_name config restore).2 ∧
    Event.resolveBackend ∉ (setup_bot env backend_name config restore).2 := by
  have hb := bot_config_defaults_missing_admins config h
  have hred : setup_bot env backend_name config restore =
      (.raised "BOT_ADMINS missing from config.py.", [Event.normalizeConfig]) := by
    unfold setup_bot
    rw [hb]
  rw [hred]
  refine ⟨hb, rfl, rfl, ?_, ?_⟩ <;> simp

/-- Witness for C4 at the empty configuration record. -/
theorem claim_C4_witness :
    (setup_bot okEnv "text" [] none).1 =
      .raised "BOT_ADMINS missing from config.py." :=
  (claim_C4 okEnv "text" none [] rfl).2.1

/-- Success-path equation for `bot_config_defaults`. -/
theorem bot_config_defaults_ok_eq (config : Config)
    (hA : hasattr (applyDefaults preAdminDefaults config)
            "BOT_ADMINS" = true) :
    bot_config_defaults config = .ok (bcdOkConfig config) := by
  unfold bot_config_defaults
  rw [if_pos hA]

/-- Success-path equation for `bcdFinal`. -/
theorem bcdFinal_ok_eq (config : Config)
    (hA : hasattr (applyDefaults preAdminDefaults config)
            "BOT_ADMINS" = true) :
    bcdFinal config = bcdOkConfig config := by
  unfold bcdFinal
  rw [bot_config_defaults_ok_eq config hA]

/-- On a `BOT_ADMINS`-only record, `BOT_ADMINS` is present after the
pre-admin defaults. -/
theorem bcd_hasattr_admins (admins : Value) :
    hasattr (applyDefaults preAdminDefaults [("BOT_ADMINS", admins)])
      "BOT_ADMINS" = true := by
  unfold hasattr
  rw [getattr_applyDefaults_some preAdminDefaults [("BOT_ADMINS", admins)]
      "BOT_ADMINS" admins rfl]
  rfl

/-- On a `BOT_ADMINS`-only record, every key of the pre-admin default
table ends up holding its default. -/
theorem bcd_pre_key (admins : Value) (k : String) (v : Value)
    (hk : getattr_ preAdminDefaults k = some v)
    (h0 : getattr_ [("BOT_ADMINS", admins)] k = none) :
    getattr_ (bcdFinal [("BOT_ADMINS", admins)]) k = some v := by
  have hpre : getattr_ (applyDefaults preAdminDefaults
      [("BOT_ADMINS", admins)]) k = some v := by
    rw [getattr_applyDefaults_lookup _ _ _ _ hk, h0]
    rfl
  rw [bcdFinal_ok_eq _ (bcd_hasattr_admins admins)]
  unfold bcdOkConfig
  exact getattr_defaultIfAbsent_some _ _ _ _ _
    (getattr_defaultIfAbsent_some _ _ _ _ _ hpre)

/-- On a `BOT_ADMINS`-only record, `TEXT_COLOR_THEME` gets its
default. -/
theorem bcd_color (admins : Value) :
    getattr_ (bcdFinal [("BOT_ADMINS", admins)]) "TEXT_COLOR_THEME" =
      some (Value.vStr "light") := by
  have hc1 : getattr_ (applyDefaults preAdminDefaults
      [("BOT_ADMINS", admins)]) "TEXT_COLOR_THEME" = none := by
    rw [getattr_applyDefaults_not_mem _ _ _ preAdmin_no_color]
    rfl
  rw [bcdFinal_ok_eq _ (bcd_hasattr_admins admins)]
  unfold bcdOkConfig
  apply getattr_defaultIfAbsent_some
  rw [getattr_defaultIfAbsent, if_pos rfl, hc1]
  rfl

/-- On a `BOT_ADMINS`-only record, `BOT_ADMINS` keeps its value. -/
theorem bcd_admins (admins : Value) :
    getattr_ (bcdFinal [("BOT_ADMINS", admins)]) "BOT_ADMINS" =
      some admins := by
  rw [bcdFinal_ok_eq _ (bcd_hasattr_admins admins)]
  unfold bcdOkConfig
  exact getattr_defaultIfAbsent_some _ _ _ _ _
    (getattr_defaultIfAbsent_some _ _ _ _ _
      (getattr_applyDefaults_some preAdminDefaults [("BOT_ADMINS", admins)]
        "BOT_ADMINS" admins rfl))

/-- On a `BOT_ADMINS`-only record, `BOT_ADMINS_NOTIFICATIONS` defaults
to the `BOT_ADMINS` value. -/
theorem bcd_notif (admins : Value) :
    getattr_ (bcdFinal [("BOT_ADMINS", admins)])
      "BOT_ADMINS_NOTIFICATIONS" = some admins := by
  have hadm2 : getattr_ (defaultIfAbsent (applyDefaults preAdminDefaults
      [("BOT_ADMINS", admins)]) "TEXT_COLOR_THEME" (Value.vStr "light"))
      "BOT_ADMINS" = some admins :=
    getattr_defaultIfAbsent_some _ _ _ _ _
      (getattr_applyDefaults_some preAdminDefaults [("BOT_ADMINS", admins)]
        "BOT_ADMINS" admins rfl)
  have hno : getattr_ (applyDefaults preAdminDefaults
      [("BOT_ADMINS", admins)]) "BOT_ADMINS_NOTIFICATIONS" = none := by
    rw [getattr_applyDefaults_not_mem _ _ _ preAdmin_no_notif]
    rfl
  have hno2 : getattr_ (defaultIfAbsent (applyDefaults preAdminDefaults
      [("BOT_ADMINS", admins)]) "TEXT_COLOR_THEME" (Value.vStr "light"))
      "BOT_ADMINS_NOTIFICATIONS" = none := by
    rw [getattr_defaultIfAbsent,
        if_neg (by decide : ¬("TEXT_COLOR_THEME" = "BOT_ADMINS_NOTIFICATIONS"))]
    exact hno
  rw [bcdFinal_ok_eq _ (bcd_hasattr_admins admins)]
  unfold bcdOkConfig
  rw [getattr_defaultIfAbsent, if_pos rfl, hno2, hadm2]
  rfl

/-- Claim C5 (confirmed): on a record that has `BOT_ADMINS` and
nothing else, normalization succeeds and sets every documented option
to its specified default, with `BOT_ADMINS_NOTIFICATIONS` equal to the
`BOT_ADMINS` list. -/
theorem claim_C5 (admins : Value) :
    bot_config_defaults [("BOT_ADMINS", admins)] =
      .ok (bcdFinal [("BOT_ADMINS", admins)]) ∧
    getattr_ (bcdFinal [("BOT_ADMINS", admins)]) "ACCESS_CONTROLS_DEFAULT" = some (Value.vDict []) ∧
    getattr_ (bcdFinal [("BOT_ADMINS", admins)]) "ACCESS_CONTROLS" = some (Value.vDict []) ∧
    getattr_ (bcdFinal [("BOT_ADMINS", admins)]) "ACCESS_CONTROLS_USE_SLACK_USERID" = some (Value.vBool false) ∧
    getattr_ (bcdFinal [("BOT_ADMINS", admins)]) "HIDE_RESTRICTED_COMMANDS" = some (Value.vBool false) ∧
    getattr_ (bcdFinal [("BOT_ADMINS", admins)]) "HIDE_RESTRICTED_ACCESS" = some (Value.vBool false) ∧
    getattr_ (bcdFinal [("BOT_ADMINS", admins)]) "BOT_PREFIX_OPTIONAL_ON_CHAT" = some (Value.vBool false) ∧
    getattr_ (bcdFinal [("BOT_ADMINS", admins)]) "BOT_PREFIX" = some (Value.vStr "!") ∧
    getattr_ (bcdFinal [("BOT_ADMINS", admins)]) "BOT_ALT_PREFIXES" = some (Value.vTuple []) ∧
    getattr_ (bcdFinal [("BOT_ADMINS", admins)]) "BOT_ALT_PREFIX_SEPARATORS" = some (Value.vTuple []) ∧
    getattr_ (bcdFinal [("BOT_ADMINS", admins)]) "BOT_ALT_PREFIX_CASEINSENSITIVE" = some (Value.vBool false) ∧
    getattr_ (bcdFinal [("BOT_ADMINS", admins)]) "BOT_LOG_LOGSTASH_PORT" = some (Value.vNat 5050) ∧
    getattr_ (bcdFinal [("BOT_ADMINS", admins)]) "BOT_LOG_LOGSTASH_HOST" = some (Value.vStr "127.0.0.1") ∧
    getattr_ (bcdFinal [("BOT_ADMINS", admins)]) "BOT_LOG_LOGSTASH_APP" = some (Value.vStr "errbot") ∧
    getattr_ (bcdFinal [("BOT_ADMINS", admins)]) "BOT_LOG_LOGSTASH_ENV" = some (Value.vStr "development") ∧
    getattr_ (bcdFinal [("BOT_ADMINS", admins)]) "DIVERT_TO_PRIVATE" = some (Value.vTuple []) ∧
    getattr_ (bcdFinal [("BOT_ADMINS", admins)]) "DIVERT_TO_THREAD" = some (Value.vTuple []) ∧
    getattr_ (bcdFinal [("BOT_ADMINS", admins)]) "MESSAGE_SIZE_LIMIT" = some (Value.vNat 10000) ∧
    getattr_ (bcdFinal [("BOT_ADMINS", admins)]) "GROUPCHAT_NICK_PREFIXED" = some (Value.vBool false) ∧
    getattr_ (bcdFinal [("BOT_ADMINS", admins)]) "AUTOINSTALL_DEPS" = some (Value.vBool true) ∧
    getattr_ (bcdFinal [("BOT_ADMINS", admins)]) "SUPPRESS_CMD_NOT_FOUND" = some (Value.vBool false) ∧
    getattr_ (bcdFinal [("BOT_ADMINS", admins)]) "BOT_ASYNC" = some (Value.vBool true) ∧
    getattr_ (bcdFinal [("BOT_ADMINS", admins)]) "BOT_ASYNC_POOLSIZE" = some (Value.vNat 10) ∧
    getattr_ (bcdFinal [("BOT_ADMINS", admins)]) "CHATROOM_PRESENCE" = some (Value.vTuple []) ∧
    getattr_ (bcdFinal [("BOT_ADMINS", admins)]) "CHATROOM_RELAY" = some (Value.vTuple []) ∧
    getattr_ (bcdFinal [("BOT_ADMINS", admins)]) "REVERSE_CHATROOM_RELAY" = some (Value.vTuple []) ∧
    getattr_ (bcdFinal [("BOT_ADMINS", admins)]) "CHATROOM_FN" = some (Value.vStr "Errbot") ∧
    getattr_ (bcdFinal [("BOT_ADMINS", admins)]) "TEXT_DEMO_MODE" = some (Value.vBool true) ∧
    getattr_ (bcdFinal [("BOT_ADMINS", admins)]) "TEXT_COLOR_THEME" = some (Value.vStr "light") ∧
    getattr_ (bcdFinal [("BOT_ADMINS", admins)]) "BOT_ADMINS" = some admins ∧
    getattr_ (bcdFinal [("BOT_ADMINS", admins)]) "BOT_ADMINS_NOTIFICATIONS" = some admins := by
  refine ⟨bot_config_defaults_ok [("BOT_ADMINS", admins)] rfl,
    ?_, ?_, ?_, ?_, ?_, ?_, ?_, ?_, ?_,
    ?_, ?_, ?_, ?_, ?_, ?_, ?_, ?_, ?_, ?_, ?_, ?_, ?_, ?_, ?_, ?_, ?_, ?_,
    ?_, ?_, ?_⟩
  · exact bcd_pre_key admins _ _ (by rfl) (by rfl)
  · exact bcd_pre_key admins _ _ (by rfl) (by rfl)
  · exact bcd_pre_key admins _ _ (by rfl) (by rfl)
  · exact bcd_pre_key admins _ _ (by rfl) (by rfl)
  · exact bcd_pre_key admins _ _ (by rfl) (by rfl)
  · exact bcd_pre_key admins _ _ (by rfl) (by rfl)
  · exact bcd_pre_key admins _ _ (by rfl) (by rfl)
  · exact bcd_pre_key admins _ _ (by rfl) (by rfl)
  · exact bcd_pre_key admins _ _ (by rfl) (by rfl)
  · exact bcd_pre_key admins _ _ (by rfl) (by rfl)
  · exact bcd_pre_key admins _ _ (by rfl) (by rfl)
  · exact bcd_pre_key admins _ _ (by rfl) (by rfl)
  · exact bcd_pre_key admins _ _ (by rfl) (by rfl)
  · exact bcd_pre_key admins _ _ (by rfl) (by rfl)
  · exact bcd_pre_key admins _ _ (by rfl) (by rfl)
  · exact bcd_pre_key admins _ _ (by rfl) (by rfl)
  · exact bcd_pre_key admins _ _ (by rfl) (by rfl)
  · exact bcd_pre_key admins _ _ (by rfl) (by rfl)
  · exact bcd_pre_key admins _ _ (by rfl) (by rfl)
  · exact bcd_pre_key admins _ _ (by rfl) (by rfl)
  · exact bcd_pre_key admins _ _ (by rfl) (by rfl)
  · exact bcd_pre_key admins _ _ (by rfl) (by rfl)
  · exact bcd_pre_key admins _ _ (by rfl) (by rfl)
  · exact bcd_pre_key admins _ _ (by rfl) (by rfl)
  · exact bcd_pre_key admins _ _ (by rfl) (by rfl)
  · exact bcd_pre_key admins _ _ (by rfl) (by rfl)
  · exact bcd_pre_key admins _ _ (by rfl) (by rfl)
  · exact bcd_color admins
  · exact bcd_admins admins
  · exact bcd_notif admins

/-- Claim C6 (confirmed): normalization never changes an option that
is already present: every attribute the user supplied holds the same
value after `bot_config_defaults`, whether normalization succeeds or
raises. -/
theorem claim_C6 (config : Config) (key : String) (x : Value)
    (h : getattr_ config key = some x) :
    getattr_ (bcdFinal config) key = some x ∧
    (∀ c, bot_config_defaults config = .ok c → getattr_ c key = some x) ∧
    (∀ e c, bot_config_defaults config = .error (e, c) →
       getattr_ c key = some x) := by
  have hb := getattr_bcdFinal_some config key x h
  refine ⟨hb, ?_, ?_⟩
  · intro c hc
    unfold bcdFinal at hb
    rw [hc] at hb
    exact hb
  · intro e c hc
    unfold bcdFinal at hb
    rw [hc] at hb
    exact hb

/-- Witness for C6: a user-supplied `BOT_PREFIX` survives
normalization unchanged. -/
theorem claim_C6_witness :
    getattr_ (bcdFinal [("BOT_PREFIX", Value.vStr "$"),
                        ("BOT_ADMINS", Value.vNone)])
      "BOT_PREFIX" = some (Value.vStr "$") :=
  (claim_C6 [("BOT_PREFIX", Value.vStr "$"), ("BOT_ADMINS", Value.vNone)]
    "BOT_PREFIX" (Value.vStr "$") rfl).1

/-- Claim C9 (confirmed): the plugin-index and extra-backend-directory
options are normalized to canonical sequence form by pure functions of
the configuration record: a bare string is promoted to a one-element
sequence holding exactly that string, an absent plugin-index option
becomes the one-element default-index tuple, and an absent
extra-backend-directory option becomes the empty list. -/
theorem claim_C9 (config : Config) :
    (∀ s, getattr_ config "BOT_PLUGIN_INDEXES" = some (Value.vStr s) →
       normalizedPluginIndexes config = Value.vTuple [Value.vStr s]) ∧
    (getattr_ config "BOT_PLUGIN_INDEXES" = none →
       normalizedPluginIndexes config =
         Value.vTuple [Value.vStr PLUGIN_DEFAULT_INDEX]) ∧
    (∀ s, getattr_ config "BOT_EXTRA_BACKEND_DIR" = some (Value.vStr s) →
       normalizedExtraBackend config = Value.vList [Value.vStr s]) ∧
    (getattr_ config "BOT_EXTRA_BACKEND_DIR" = none →
       normalizedExtraBackend config = Value.vList []) := by
  refine ⟨?_, ?_, ?_, ?_⟩
  · intro s hs
    simp [normalizedPluginIndexes, getattrD, hs]
  · intro hn
    simp [normalizedPluginIndexes, getattrD, hn]
  · intro s hs
    simp [normalizedExtraBackend, getattrD, hs]
  · intro hn
    simp [normalizedExtraBackend, getattrD, hn]

/-- Witness for C9: string promotion and the absent-option defaults at
concrete records. -/
theorem claim_C9_witness :
    normalizedPluginIndexes
        [("BOT_PLUGIN_INDEXES", Value.vStr "https://example.org/r.json")] =
      Value.vTuple [Value.vStr "https://example.org/r.json"] ∧
    normalizedPluginIndexes [] =
      Value.vTuple [Value.vStr PLUGIN_DEFAULT_INDEX] ∧
    normalizedExtraBackend [("BOT_EXTRA_BACKEND_DIR", Value.vStr "/xb")] =
      Value.vList [Value.vStr "/xb"] ∧
    normalizedExtraBackend [] = Value.vList [] :=
  ⟨(claim_C9 _).1 _ rfl, (claim_C9 []).2.1 rfl,
   (claim_C9 _).2.2.1 _ rfl, (claim_C9 []).2.2.2 rfl⟩

/-- Claim C10 (confirmed): normalization is not atomic on error — when
`BOT_ADMINS` is missing, by raise time every option of the pre-admin
default table (`ACCESS_CONTROLS_DEFAULT` through `TEXT_DEMO_MODE`) has
been set in place (to the user value when supplied, to its default
otherwise), while `TEXT_COLOR_THEME` and `BOT_ADMINS_NOTIFICATIONS`
remain unset if they were absent. -/
theorem claim_C10 (config : Config)
    (h : hasattr config "BOT_ADMINS" = false) :
    bot_config_defaults config =
      .error ("BOT_ADMINS missing from config.py.", bcdFinal config) ∧
    (∀ k v, getattr_ preAdminDefaults k = some v →
       getattr_ (bcdFinal config) k = some ((getattr_ config k).getD v)) ∧
    (hasattr config "TEXT_COLOR_THEME" = false →
       hasattr (bcdFinal config) "TEXT_COLOR_THEME" = false) ∧
    (hasattr config "BOT_ADMINS_NOTIFICATIONS" = false →
       hasattr (bcdFinal config) "BOT_ADMINS_NOTIFICATIONS" = false) := by
  have hfin := bcdFinal_missing_admins config h
  refine ⟨?_, ?_, ?_, ?_⟩
  · rw [bot_config_defaults_missing_admins config h, hfin]
  · intro k v hv
    rw [hfin]
    exact getattr_applyDefaults_lookup _ _ _ _ hv
  · intro hc
    rw [hfin, hasattr_eq_false_iff,
        getattr_applyDefaults_not_mem _ _ _ preAdmin_no_color]
    exact (hasattr_eq_false_iff _ _).mp hc
  · intro hc
    rw [hfin, hasattr_eq_false_iff,
        getattr_applyDefaults_not_mem _ _ _ preAdmin_no_notif]
    exact (hasattr_eq_false_iff _ _).mp hc

/-- Witness for C10 at the empty record: `TEXT_DEMO_MODE` (last
pre-admin default) is already set at raise time, `TEXT_COLOR_THEME`
and `BOT_ADMINS_NOTIFICATIONS` are not. -/
theorem claim_C10_witness :
    getattr_ (bcdFinal []) "TEXT_DEMO_MODE" = some (Value.vBool true) ∧
    hasattr (bcdFinal []) "TEXT_COLOR_THEME" = false ∧
    hasattr (bcdFinal []) "BOT_ADMINS_NOTIFICATIONS" = false :=
  ⟨(claim_C10 [] rfl).2.1 "TEXT_DEMO_MODE" (Value.vBool true) rfl,
   (claim_C10 [] rfl).2.2.1 rfl,
   (claim_C10 [] rfl).2.2.2 rfl⟩

/-- A restore script that raises partway through, leaving the bot as
it found it. -/
def raisingScript : Bot → ExecResult := fun b => .raised "boom" b

/-- Claim C1 (corrected): counterexample — a restore script that
raises makes `restore_bot_from_backup` propagate the exception with
`close_storage` never invoked (no close event, the bot state at raise
time still has storage open), refuting the claimed try/finally
behaviour. -/
theorem claim_C1_counterexample :
    (restore_bot_from_backup raisingScript wiredBot).1 =
      ExecResult.raised "boom" wiredBot ∧
    Event.closeStorage ∉ (restore_bot_from_backup raisingScript wiredBot).2 ∧
    wiredBot.storageClosed = false ∧
    wiredBot.closeCount = 0 := by
  refine ⟨rfl, ?_, rfl, rfl⟩
  decide

/-- Claim C1 (corrected, amended): storage close is conditional on the
script completing normally — on normal completion `close_storage` runs
exactly once, after the script; when the script raises, the exception
propagates to the caller and `close_storage` is never invoked. -/
theorem claim_C1_amended (script : Bot → ExecResult) (bot : Bot) :
    ((restore_bot_from_backup script bot).2.count Event.closeStorage =
       match script bot with
       | .ok _ => 1
       | .raised _ _ => 0) ∧
    (∀ b, script bot = .ok b →
       restore_bot_from_backup script bot =
         (.ok (close_storage b), [.execRestoreScript, .closeStorage]) ∧
       (close_storage b).closeCount = b.closeCount + 1) ∧
    (∀ e b, script bot = .raised e b →
       restore_bot_from_backup script bot =
         (.raised e b, [.execRestoreScript]) ∧
       Event.closeStorage ∉ (restore_bot_from_backup script bot).2) := by
  refine ⟨?_, ?_, ?_⟩
  · cases hs : script bot <;> simp [restore_bot_from_backup, hs]
  · intro b hb
    simp [restore_bot_from_backup, hb, close_storage]
  · intro e b hb
    simp [restore_bot_from_backup, hb]

/-- Witness for the amended C1 at a concrete raising script. -/
theorem claim_C1_amended_witness :
    restore_bot_from_backup raisingScript emptyBot =
      (.raised "boom" emptyBot, [.execRestoreScript]) :=
  ((claim_C1_amended raisingScript emptyBot).2.2 "boom" emptyBot rfl).1

/-- Claim C2 (corrected): counterexample — an exception raised during
storage-plugin resolution (step 3 of the orchestration) propagates out
of `setup_bot` to its caller, instead of being caught at the
orchestrator boundary and converted to a process exit. -/
theorem claim_C2_counterexample :
    (setup_bot
        { okEnv with storagePlugin := fun _ _ => .raised "PluginNotFoundError" }
        "text" goodConfig none).1 = .raised "PluginNotFoundError" := rfl

/-- Claim C2 (corrected, amended): for every execution of `setup_bot`,
only exceptions raised inside the `try:` block that begins at
backend-plugin loading — runtime construction, extension-manager
construction, backend-storage initialization, extension loading — are
caught at the orchestrator boundary, logged ("Unable to load or
configure the backend."), and converted to a non-zero process exit;
an exception raised in any earlier step (logging configuration,
storage-plugin resolution, extension-directory preparation,
chat-backend resolution, repo-manager construction) propagates to the
caller of `setup_bot`. Each conjunct assumes the steps preceding the
failing one succeed, so that the execution reaches that step. -/
theorem claim_C2_amended (env : Env) (backend_name : String)
    (config cfg : Config) (dd epd s r pm : Value) (b0 : Bot) (e : String)
    (restore : Option (Bot → ExecResult))
    (h1 : bot_config_defaults config = .ok cfg) :
    (env.loggingStep = .raised e →
       (setup_bot env backend_name config restore).1 = .raised e) ∧
    (env.loggingStep = .ok () →
     env.storagePlugin (getattrD cfg "STORAGE" (Value.vStr "Shelf"))
         (getattrD cfg "BOT_EXTRA_STORAGE_PLUGINS_DIR" Value.vNone) =
       .raised e →
       (setup_bot env backend_name config restore).1 = .raised e) ∧
    (env.loggingStep = .ok () →
     env.storagePlugin (getattrD cfg "STORAGE" (Value.vStr "Shelf"))
         (getattrD cfg "BOT_EXTRA_STORAGE_PLUGINS_DIR" Value.vNone) = .ok s →
     getattr_ cfg "BOT_DATA_DIR" = some dd →
     env.dirExists = false →
     env.makedirs = .raised e →
       (setup_bot env backend_name config restore).1 = .raised e) ∧
    (env.loggingStep = .ok () →
     env.storagePlugin (getattrD cfg "STORAGE" (Value.vStr "Shelf"))
         (getattrD cfg "BOT_EXTRA_STORAGE_PLUGINS_DIR" Value.vNone) = .ok s →
     getattr_ cfg "BOT_DATA_DIR" = some dd →
     (if env.dirExists then ExtResult.ok () else env.makedirs) =
       ExtResult.ok () →
     env.backendResolve backend_name (normalizedExtraBackend cfg) =
       .raised e →
       (setup_bot env backend_name config restore).1 = .raised e) ∧
    (env.loggingStep = .ok () →
     env.storagePlugin (getattrD cfg "STORAGE" (Value.vStr "Shelf"))
         (getattrD cfg "BOT_EXTRA_STORAGE_PLUGINS_DIR" Value.vNone) = .ok s →
     getattr_ cfg "BOT_DATA_DIR" = some dd →
     (if env.dirExists then ExtResult.ok () else env.makedirs) =
       ExtResult.ok () →
     env.backendResolve backend_name (normalizedExtraBackend cfg) = .ok () →
     env.repoManagerCtor s (normalizedPluginIndexes cfg) = .raised e →
       (setup_bot env backend_name config restore).1 = .raised e) ∧
    (env.loggingStep = .ok () →
     env.storagePlugin (getattrD cfg "STORAGE" (Value.vStr "Shelf"))
         (getattrD cfg "BOT_EXTRA_STORAGE_PLUGINS_DIR" Value.vNone) = .ok s →
     getattr_ cfg "BOT_DATA_DIR" = some dd →
     (if env.dirExists then ExtResult.ok () else env.makedirs) =
       ExtResult.ok () →
     env.backendResolve backend_name (normalizedExtraBackend cfg) = .ok () →
     env.repoManagerCtor s (normalizedPluginIndexes cfg) = .ok r →
     env.loadBackendPlugin = .raised e →
       (setup_bot env backend_name config restore).1 = .exited (-1) ∧
       Event.logError "Unable to load or configure the backend." ∈
         (setup_bot env backend_name config restore).2) ∧
    (env.loggingStep = .ok () →
     env.storagePlugin (getattrD cfg "STORAGE" (Value.vStr "Shelf"))
         (getattrD cfg "BOT_EXTRA_STORAGE_PLUGINS_DIR" Value.vNone) = .ok s →
     getattr_ cfg "BOT_DATA_DIR" = some dd →
     (if env.dirExists then ExtResult.ok () else env.makedirs) =
       ExtResult.ok () →
     env.backendResolve backend_name (normalizedExtraBackend cfg) = .ok () →
     env.repoManagerCtor s (normalizedPluginIndexes cfg) = .ok r →
     env.loadBackendPlugin = .ok b0 →
     getattr_ cfg "BOT_EXTRA_PLUGIN_DIR" = some epd →
     env.botPMCtor s = .raised e →
       (setup_bot env backend_name config restore).1 = .exited (-1) ∧
       Event.logError "Unable to load or configure the backend." ∈
         (setup_bot env backend_name config restore).2) ∧
    (env.loggingStep = .ok () →
     env.storagePlugin (getattrD cfg "STORAGE" (Value.vStr "Shelf"))
         (getattrD cfg "BOT_EXTRA_STORAGE_PLUGINS_DIR" Value.vNone) = .ok s →
     getattr_ cfg "BOT_DATA_DIR" = some dd →
     (if env.dirExists then ExtResult.ok () else env.makedirs) =
       ExtResult.ok () →
     env.backendResolve backend_name (normalizedExtraBackend cfg) = .ok () →
     env.repoManagerCtor s (normalizedPluginIndexes cfg) = .ok r →
     env.loadBackendPlugin = .ok b0 →
     getattr_ cfg "BOT_EXTRA_PLUGIN_DIR" = some epd →
     env.botPMCtor s = .ok pm →
     env.initBackendStorage = .raised e →
       (setup_bot env backend_name config restore).1 = .exited (-1) ∧
       Event.logError "Unable to load or configure the backend." ∈
         (setup_bot env backend_name config restore).2) ∧
    (env.loggingStep = .ok () →
     env.storagePlugin (getattrD cfg "STORAGE" (Value.vStr "Shelf"))
         (getattrD cfg "BOT_EXTRA_STORAGE_PLUGINS_DIR" Value.vNone) = .ok s →
     getattr_ cfg "BOT_DATA_DIR" = some dd →
     (if env.dirExists then ExtResult.ok () else env.makedirs) =
       ExtResult.ok () →
     env.backendResolve backend_name (normalizedExtraBackend cfg) = .ok () →
     env.repoManagerCtor s (normalizedPluginIndexes cfg) = .ok r →
     env.loadBackendPlugin = .ok b0 →
     getattr_ cfg "BOT_EXTRA_PLUGIN_DIR" = some epd →
     env.botPMCtor s = .ok pm →
     env.initBackendStorage = .ok () →
     env.updatePluginPlaces = .raised e →
       (setup_bot env backend_name config none).1 = .exited (-1) ∧
       Event.logError "Unable to load or configure the backend." ∈
         (setup_bot env backend_name config none).2) := by
  refine ⟨?_, ?_, ?_, ?_, ?_, ?_, ?_, ?_, ?_⟩
  · intro hx
    unfold setup_bot
    simp only [h1, hx]
  · intro p2 hx
    unfold setup_bot get_storage_plugin
    simp only [h1, p2, hx]
  · intro p2 p3 p4 hdf hx
    unfold setup_bot get_storage_plugin
    simp only [h1, p2, p3, p4, hdf, hx, Bool.false_eq_true, reduceIte]
  · intro p2 p3 p4 pdir hx
    unfold setup_bot get_storage_plugin
    simp only [h1, p2, p3, p4, pdir, hx]
  · intro p2 p3 p4 pdir p6 hx
    unfold setup_bot get_storage_plugin
    simp only [h1, p2, p3, p4, pdir, p6, hx]
  · intro p2 p3 p4 pdir p6 p7 hx
    have hred : setup_bot env backend_name config restore =
        (.exited (-1),
         [Event.normalizeConfig, Event.configureLogging, Event.resolveStorage,
          Event.prepareDir, Event.normalizeLists, Event.resolveBackend,
          Event.constructRepoManager, Event.loadBackendPlugin,
          Event.logError "Unable to load or configure the backend."]) := by
      unfold setup_bot setup_try get_storage_plugin
      simp only [h1, p2, p3, p4, pdir, p6, p7, hx]
      rfl
    rw [hred]
    exact ⟨rfl, by decide⟩
  · intro p2 p3 p4 pdir p6 p7 p8 p9 hx
    have hred : setup_bot env backend_name config restore =
        (.exited (-1),
         [Event.normalizeConfig, Event.configureLogging, Event.resolveStorage,
          Event.prepareDir, Event.normalizeLists, Event.resolveBackend,
          Event.constructRepoManager, Event.loadBackendPlugin,
          Event.constructPluginManager,
          Event.logError "Unable to load or configure the backend."]) := by
      unfold setup_bot setup_try get_storage_plugin
      simp only [h1, p2, p3, p4, pdir, p6, p7, p8, p9, hx]
      rfl
    rw [hred]
    exact ⟨rfl, by decide⟩
  · intro p2 p3 p4 pdir p6 p7 p8 p9 p10 hx
    have hred : setup_bot env backend_name config restore =
        (.exited (-1),
         [Event.normalizeConfig, Event.configureLogging, Event.resolveStorage,
          Event.prepareDir, Event.normalizeLists, Event.resolveBackend,
          Event.constructRepoManager, Event.loadBackendPlugin,
          Event.constructPluginManager, Event.attachStorage,
          Event.attachRepoManager, Event.attachPluginManager,
          Event.initBackendStorage,
          Event.logError "Unable to load or configure the backend."]) := by
      unfold setup_bot setup_try get_storage_plugin
      simp only [h1, p2, p3, p4, pdir, p6, p7, p8, p9, p10, hx]
      rfl
    rw [hred]
    exact ⟨rfl, by decide⟩
  · intro p2 p3 p4 pdir p6 p7 p8 p9 p10 p11 hx
    have hred : setup_bot env backend_name config none =
        (.exited (-1),
         [Event.normalizeConfig, Event.configureLogging, Event.resolveStorage,
          Event.prepareDir, Event.normalizeLists, Event.resolveBackend,
          Event.constructRepoManager, Event.loadBackendPlugin,
          Event.constructPluginManager, Event.attachStorage,
          Event.attachRepoManager, Event.attachPluginManager,
          Event.initBackendStorage, Event.loadExtensions,
          Event.logError "Unable to load or configure the backend."]) := by
      unfold setup_bot setup_try get_storage_plugin
      simp only [h1, p2, p3, p4, pdir, p6, p7, p8, p9, p10, p11, hx]
      rfl
    rw [hred]
    exact ⟨rfl, by decide⟩

/-- Witness for the amended C2: a propagating storage-resolution
failure and a caught-and-logged backend-load failure, at concrete
inputs. -/
theorem claim_C2_amended_witness :
    (setup_bot { okEnv with storagePlugin := fun _ _ => .raised "boom" }
        "text" goodConfig none).1 = .raised "boom" ∧
    ((setup_bot { okEnv with loadBackendPlugin := .raised "boom" }
        "text" goodConfig none).1 = .exited (-1) ∧
     Event.logError "Unable to load or configure the backend." ∈
       (setup_bot { okEnv with loadBackendPlugin := .raised "boom" }
          "text" goodConfig none).2) := by
  constructor
  · exact (claim_C2_amended
      { okEnv with storagePlugin := fun _ _ => .raised "boom" }
      "text" goodConfig (bcdFinal goodConfig) (Value.vStr "/data")
      Value.vNone (Value.vObj "storage") (Value.vObj "repo_manager")
      (Value.vObj "botpm") emptyBot "boom" none rfl).2.1 rfl rfl
  · exact (claim_C2_amended
      { okEnv with loadBackendPlugin := .raised "boom" }
      "text" goodConfig (bcdFinal goodConfig) (Value.vStr "/data")
      Value.vNone (Value.vObj "storage") (Value.vObj "repo_manager")
      (Value.vObj "botpm") emptyBot "boom" none rfl).2.2.2.2.2.1
      rfl rfl rfl rfl rfl rfl rfl

/-- Claim C3 (confirmed): when restore is requested on a run whose
bootstrap steps succeed, a runtime object reporting existing
repository state (a `repos` entry) makes `setup_bot` terminate with
non-zero status without the restore script ever executing; with no
such state, a normally-completing restore script (any script of shape
`fun b => .ok (f b)`) is executed against the wired runtime object,
storage is closed, and the process terminates with status 0, never
loading extensions. -/
theorem claim_C3 (env : Env) (backend_name : String) (config cfg : Config)
    (dd epd s r pm : Value) (b0 : Bot)
    (script : Bot → ExecResult) (f : Bot → Bot)
    (h1 : bot_config_defaults config = .ok cfg)
    (h2 : env.loggingStep = .ok ())
    (h3 : env.storagePlugin (getattrD cfg "STORAGE" (Value.vStr "Shelf"))
            (getattrD cfg "BOT_EXTRA_STORAGE_PLUGINS_DIR" Value.vNone) = .ok s)
    (h4 : getattr_ cfg "BOT_DATA_DIR" = some dd)
    (h5 : env.dirExists = true)
    (h6 : env.backendResolve backend_name (normalizedExtraBackend cfg) = .ok ())
    (h7 : env.repoManagerCtor s (normalizedPluginIndexes cfg) = .ok r)
    (h8 : env.loadBackendPlugin = .ok b0)
    (h9 : getattr_ cfg "BOT_EXTRA_PLUGIN_DIR" = some epd)
    (h10 : env.botPMCtor s = .ok pm)
    (h11 : env.initBackendStorage = .ok ()) :
    (b0.keys.contains "repos" = true →
       (setup_bot env backend_name config (some script)).1 = .exited (-1) ∧
       Event.execRestoreScript ∉
         (setup_bot env backend_name config (some script)).2) ∧
    (b0.keys.contains "repos" = false →
       (setup_bot env backend_name config
           (some (fun b => ExecResult.ok (f b)))).1 = .exited 0 ∧
       Event.execRestoreScript ∈
         (setup_bot env backend_name config
           (some (fun b => ExecResult.ok (f b)))).2 ∧
       Event.closeStorage ∈
         (setup_bot env backend_name config
           (some (fun b => ExecResult.ok (f b)))).2 ∧
       Event.loadExtensions ∉
         (setup_bot env backend_name config
           (some (fun b => ExecResult.ok (f b)))).2) := by
  constructor
  · intro hrep
    have hred : setup_bot env backend_name config (some script) =
        (.exited (-1),
         [Event.normalizeConfig, Event.configureLogging, Event.resolveStorage,
          Event.prepareDir, Event.normalizeLists, Event.resolveBackend,
          Event.constructRepoManager, Event.loadBackendPlugin,
          Event.constructPluginManager, Event.attachStorage,
          Event.attachRepoManager, Event.attachPluginManager,
          Event.initBackendStorage, Event.checkRepos,
          Event.logError "You cannot restore onto a non empty bot."]) := by
      unfold setup_bot setup_try get_storage_plugin
      simp only [h1, h2, h3, h4, h5, h6, h7, h8, h9, h10, h11, hrep,
                 reduceIte]
      rfl
    rw [hred]
    exact ⟨rfl, by decide⟩
  · intro hrep
    have hred : setup_bot env backend_name config
        (some (fun b => ExecResult.ok (f b))) =
        (.exited 0,
         [Event.normalizeConfig, Event.configureLogging, Event.resolveStorage,
          Event.prepareDir, Event.normalizeLists, Event.resolveBackend,
          Event.constructRepoManager, Event.loadBackendPlugin,
          Event.constructPluginManager, Event.attachStorage,
          Event.attachRepoManager, Event.attachPluginManager,
          Event.initBackendStorage, Event.checkRepos,
          Event.execRestoreScript, Event.closeStorage]) := by
      unfold setup_bot setup_try get_storage_plugin restore_bot_from_backup
      simp only [h1, h2, h3, h4, h5, h6, h7, h8, h9, h10, h11, hrep,
                 reduceIte]
      rfl
    rw [hred]
    exact ⟨rfl, by decide, by decide, by decide⟩

/-- Witness for C3 at a concrete environment: restore onto a bot with
repository state exits non-zero; restore onto an empty bot with an
always-succeeding script exits zero. -/
theorem claim_C3_witness :
    (setup_bot { okEnv with loadBackendPlugin := .ok reposBot } "text"
        goodConfig (some (fun b => ExecResult.ok b))).1 = .exited (-1) ∧
    (setup_bot okEnv "text" goodConfig
        (some (fun b => ExecResult.ok b))).1 = .exited 0 := by
  constructor
  · exact ((claim_C3 { okEnv with loadBackendPlugin := .ok reposBot } "text"
      goodConfig (bcdFinal goodConfig) (Value.vStr "/data") Value.vNone
      (Value.vObj "storage") (Value.vObj "repo_manager") (Value.vObj "botpm")
      reposBot (fun b => ExecResult.ok b) (fun b => b)
      rfl rfl rfl rfl rfl rfl rfl rfl rfl rfl rfl).1 rfl).1
  · exact ((claim_C3 okEnv "text" goodConfig (bcdFinal goodConfig)
      (Value.vStr "/data") Value.vNone (Value.vObj "storage")
      (Value.vObj "repo_manager") (Value.vObj "botpm") emptyBot
      (fun b => ExecResult.ok b) (fun b => b)
      rfl rfl rfl rfl rfl rfl rfl rfl rfl rfl rfl).2 rfl).1

/-- Claim C7 (confirmed): in every successful (non-restore) run of
`setup_bot`, the trace contains the three attachments contiguously in
the order storage handle, repo-manager handle, extension-manager
handle, immediately followed by backend-storage initialization, and
none of these four events occurs anywhere else in the trace. -/
theorem claim_C7 (env : Env) (backend_name : String) (config : Config)
    (b : Bot)
    (h : (setup_bot env backend_name config none).1 = .returned b) :
    ∃ l1 l2,
      (setup_bot env backend_name config none).2 =
        l1 ++ [Event.attachStorage, Event.attachRepoManager,
               Event.attachPluginManager, Event.initBackendStorage] ++ l2 ∧
      Event.attachStorage ∉ l1 ∧ Event.attachStorage ∉ l2 ∧
      Event.attachRepoManager ∉ l1 ∧ Event.attachRepoManager ∉ l2 ∧
      Event.attachPluginManager ∉ l1 ∧ Event.attachPluginManager ∉ l2 ∧
      Event.initBackendStorage ∉ l1 ∧ Event.initBackendStorage ∉ l2 := by
  cases h1 : bot_config_defaults config with
  | error p =>
      obtain ⟨e, c⟩ := p
      rw [show (setup_bot env backend_name config none).1 = .raised e from by
        unfold setup_bot
        simp only [h1]] at h
      simp at h
  | ok cfg =>
  cases h2 : env.loggingStep with
  | raised e =>
      rw [show (setup_bot env backend_name config none).1 = .raised e from by
        unfold setup_bot
        simp only [h1, h2]] at h
      simp at h
  | exited code =>
      rw [show (setup_bot env backend_name config none).1 = .exited code from by
        unfold setup_bot
        simp only [h1, h2]] at h
      simp at h
  | ok u2 =>
  cases h3 : env.storagePlugin (getattrD cfg "STORAGE" (Value.vStr "Shelf"))
      (getattrD cfg "BOT_EXTRA_STORAGE_PLUGINS_DIR" Value.vNone) with
  | raised e =>
      rw [show (setup_bot env backend_name config none).1 = .raised e from by
        unfold setup_bot get_storage_plugin
        simp only [h1, h2, h3]] at h
      simp at h
  | exited code =>
      rw [show (setup_bot env backend_name config none).1 = .exited code from by
        unfold setup_bot get_storage_plugin
        simp only [h1, h2, h3]] at h
      simp at h
  | ok s =>
  cases h4 : getattr_ cfg "BOT_DATA_DIR" with
  | none =>
      rw [show (setup_bot env backend_name config none).1 =
          .raised "AttributeError: BOT_DATA_DIR" from by
        unfold setup_bot get_storage_plugin
        simp only [h1, h2, h3, h4]] at h
      simp at h
  | some dd =>
  have hdir : (if env.dirExists then ExtResult.ok () else env.makedirs) =
      ExtResult.ok () := by
    cases h5 : env.dirExists with
    | true => rfl
    | false =>
        cases h5m : env.makedirs with
        | ok u3 =>
            rw [if_neg Bool.false_ne_true]
        | raised e =>
            rw [show (setup_bot env backend_name config none).1 =
                .raised e from by
              unfold setup_bot get_storage_plugin
              simp only [h1, h2, h3, h4, h5, h5m, Bool.false_eq_true,
                         reduceIte]] at h
            simp at h
        | exited code =>
            rw [show (setup_bot env backend_name config none).1 =
                .exited code from by
              unfold setup_bot get_storage_plugin
              simp only [h1, h2, h3, h4, h5, h5m, Bool.false_eq_true,
                         reduceIte]] at h
            simp at h
  cases h6 : env.backendResolve backend_name (normalizedExtraBackend cfg) with
  | raised e =>
      rw [show (setup_bot env backend_name config none).1 = .raised e from by
        unfold setup_bot get_storage_plugin
        simp only [h1, h2, h3, h4, hdir, h6]] at h
      simp at h
  | exited code =>
      rw [show (setup_bot env backend_name config none).1 = .exited code from by
        unfold setup_bot get_storage_plugin
        simp only [h1, h2, h3, h4, hdir, h6]] at h
      simp at h
  | ok u6 =>
  cases h7 : env.repoManagerCtor s (normalizedPluginIndexes cfg) with
  | raised e =>
      rw [show (setup_bot env backend_name config none).1 = .raised e from by
        unfold setup_bot get_storage_plugin
        simp only [h1, h2, h3, h4, hdir, h6, h7]] at h
      simp at h
  | exited code =>
      rw [show (setup_bot env backend_name config none).1 = .exited code from by
        unfold setup_bot get_storage_plugin
        simp only [h1, h2, h3, h4, hdir, h6, h7]] at h
      simp at h
  | ok r =>
  cases h8 : env.loadBackendPlugin with
  | raised e =>
      rw [show (setup_bot env backend_name config none).1 = .exited (-1) from by
        unfold setup_bot setup_try get_storage_plugin
        simp only [h1, h2, h3, h4, hdir, h6, h7, h8]] at h
      simp at h
  | exited code =>
      rw [show (setup_bot env backend_name config none).1 = .exited code from by
        unfold setup_bot setup_try get_storage_plugin
        simp only [h1, h2, h3, h4, hdir, h6, h7, h8]] at h
      simp at h
  | ok b0 =>
  cases h9 : getattr_ cfg "BOT_EXTRA_PLUGIN_DIR" with
  | none =>
      rw [show (setup_bot env backend_name config none).1 = .exited (-1) from by
        unfold setup_bot setup_try get_storage_plugin
        simp only [h1, h2, h3, h4, hdir, h6, h7, h8, h9]] at h
      simp at h
  | some epd =>
  cases h10 : env.botPMCtor s with
  | raised e =>
      rw [show (setup_bot env backend_name config none).1 = .exited (-1) from by
        unfold setup_bot setup_try get_storage_plugin
        simp only [h1, h2, h3, h4, hdir, h6, h7, h8, h9, h10]] at h
      simp at h
  | exited code =>
      rw [show (setup_bot env backend_name config none).1 = .exited code from by
        unfold setup_bot setup_try get_storage_plugin
        simp only [h1, h2, h3, h4, hdir, h6, h7, h8, h9, h10]] at h
      simp at h
  | ok pm =>
  cases h11 : env.initBackendStorage with
  | raised e =>
      rw [show (setup_bot env backend_name config none).1 = .exited (-1) from by
        unfold setup_bot setup_try get_storage_plugin
        simp only [h1, h2, h3, h4, hdir, h6, h7, h8, h9, h10, h11]] at h
      simp at h
  | exited code =>
      rw [show (setup_bot env backend_name config none).1 = .exited code from by
        unfold setup_bot setup_try get_storage_plugin
        simp only [h1, h2, h3, h4, hdir, h6, h7, h8, h9, h10, h11]] at h
      simp at h
  | ok u11 =>
  cases h12 : env.updatePluginPlaces with
  | raised e =>
      rw [show (setup_bot env backend_name config none).1 = .exited (-1) from by
        unfold setup_bot setup_try get_storage_plugin
        simp only [h1, h2, h3, h4, hdir, h6, h7, h8, h9, h10, h11, h12]] at h
      simp at h
  | exited code =>
      rw [show (setup_bot env backend_name config none).1 = .exited code from by
        unfold setup_bot setup_try get_storage_plugin
        simp only [h1, h2, h3, h4, hdir, h6, h7, h8, h9, h10, h11, h12]] at h
      simp at h
  | ok errors =>
  cases h13 : errors.isEmpty with
  | true =>
      rw [show (setup_bot env backend_name config none).2 =
          [Event.normalizeConfig, Event.configureLogging,
           Event.resolveStorage, Event.prepareDir, Event.normalizeLists,
           Event.resolveBackend, Event.constructRepoManager,
           Event.loadBackendPlugin, Event.constructPluginManager,
           Event.attachStorage, Event.attachRepoManager,
           Event.attachPluginManager, Event.initBackendStorage,
           Event.loadExtensions] from by
        unfold setup_bot setup_try get_storage_plugin
        simp only [h1, h2, h3, h4, hdir, h6, h7, h8, h9, h10, h11, h12, h13,
                   reduceIte]
        rfl]
      exact ⟨[Event.normalizeConfig, Event.configureLogging,
              Event.resolveStorage, Event.prepareDir, Event.normalizeLists,
              Event.resolveBackend, Event.constructRepoManager,
              Event.loadBackendPlugin, Event.constructPluginManager],
             [Event.loadExtensions], by decide, by decide, by decide,
             by decide, by decide, by decide, by decide, by decide, by decide⟩
  | false =>
      rw [show (setup_bot env backend_name config none).2 =
          [Event.normalizeConfig, Event.configureLogging,
           Event.resolveStorage, Event.prepareDir, Event.normalizeLists,
           Event.resolveBackend, Event.constructRepoManager,
           Event.loadBackendPlugin, Event.constructPluginManager,
           Event.attachStorage, Event.attachRepoManager,
           Event.attachPluginManager, Event.initBackendStorage,
           Event.loadExtensions,
           Event.logError ("Some plugins failed to load:\n" ++
             String.intercalate "\n" (errors.map Prod.snd))] from by
        unfold setup_bot setup_try get_storage_plugin
        simp only [h1, h2, h3, h4, hdir, h6, h7, h8, h9, h10, h11, h12, h13,
                   Bool.false_eq_true, reduceIte]
        rfl]
      exact ⟨[Event.normalizeConfig, Event.configureLogging,
              Event.resolveStorage, Event.prepareDir, Event.normalizeLists,
              Event.resolveBackend, Event.constructRepoManager,
              Event.loadBackendPlugin, Event.constructPluginManager],
             [Event.loadExtensions,
              Event.logError ("Some plugins failed to load:\n" ++
                String.intercalate "\n" (errors.map Prod.snd))],
             rfl, by decide, by simp, by decide, by simp, by decide, by simp,
             by decide, by simp⟩

/-- Witness for C7 at a concrete all-successful environment. -/
theorem claim_C7_witness :
    ∃ l1 l2,
      (setup_bot okEnv "text" goodConfig none).2 =
        l1 ++ [Event.attachStorage, Event.attachRepoManager,
               Event.attachPluginManager, Event.initBackendStorage] ++ l2 ∧
      Event.attachStorage ∉ l1 ∧ Event.attachStorage ∉ l2 ∧
      Event.attachRepoManager ∉ l1 ∧ Event.attachRepoManager ∉ l2 ∧
      Event.attachPluginManager ∉ l1 ∧ Event.attachPluginManager ∉ l2 ∧
      Event.initBackendStorage ∉ l1 ∧ Event.initBackendStorage ∉ l2 :=
  claim_C7 okEnv "text" goodConfig wiredBot rfl

/-- Claim C8 (confirmed): in a non-restore run whose bootstrap steps
succeed but whose extension loading returns a non-empty
identifier-to-error-message mapping, bootstrap still completes: the
newline-joined aggregated error text is recorded on the runtime
object, and the fully wired runtime object is returned to the caller
rather than the process exiting. -/
theorem claim_C8 (env : Env) (backend_name : String) (config cfg : Config)
    (dd epd s r pm : Value) (b0 : Bot) (errors : List (String × String))
    (h1 : bot_config_defaults config = .ok cfg)
    (h2 : env.loggingStep = .ok ())
    (h3 : env.storagePlugin (getattrD cfg "STORAGE" (Value.vStr "Shelf"))
            (getattrD cfg "BOT_EXTRA_STORAGE_PLUGINS_DIR" Value.vNone) = .ok s)
    (h4 : getattr_ cfg "BOT_DATA_DIR" = some dd)
    (h5 : env.dirExists = true)
    (h6 : env.backendResolve backend_name (normalizedExtraBackend cfg) = .ok ())
    (h7 : env.repoManagerCtor s (normalizedPluginIndexes cfg) = .ok r)
    (h8 : env.loadBackendPlugin = .ok b0)
    (h9 : getattr_ cfg "BOT_EXTRA_PLUGIN_DIR" = some epd)
    (h10 : env.botPMCtor s = .ok pm)
    (h11 : env.initBackendStorage = .ok ())
    (h12 : env.updatePluginPlaces = .ok errors)
    (h13 : errors ≠ []) :
    (setup_bot env backend_name config none).1 =
      .returned
        { b0 with
            storage := some s,
            repoManager := some r,
            pluginManager := some pm,
            backendStorageInitialized := true,
            pluginErrorsDuringStartup :=
              some (String.intercalate "\n" (errors.map Prod.snd)) } ∧
    Event.loadExtensions ∈ (setup_bot env backend_name config none).2 := by
  have hne : errors.isEmpty = false := by
    cases errors with
    | nil => exact absurd rfl h13
    | cons a l => rfl
  have hred : setup_bot env backend_name config none =
      (.returned
        { b0 with
            storage := some s,
            repoManager := some r,
            pluginManager := some pm,
            backendStorageInitialized := true,
            pluginErrorsDuringStartup :=
              some (String.intercalate "\n" (errors.map Prod.snd)) },
       [Event.normalizeConfig, Event.configureLogging, Event.resolveStorage,
        Event.prepareDir, Event.normalizeLists, Event.resolveBackend,
        Event.constructRepoManager, Event.loadBackendPlugin,
        Event.constructPluginManager, Event.attachStorage,
        Event.attachRepoManager, Event.attachPluginManager,
        Event.initBackendStorage, Event.loadExtensions,
        Event.logError ("Some plugins failed to load:\n" ++
          String.intercalate "\n" (errors.map Prod.snd))]) := by
    unfold setup_bot setup_try get_storage_plugin
    simp only [h1, h2, h3, h4, h5, h6, h7, h8, h9, h10, h11, h12, hne,
               Bool.false_eq_true, reduceIte]
    rfl
  rw [hred]
  exact ⟨rfl, by simp⟩

/-- Witness for C8: with two extensions failing to load, the bot is
still returned and carries the joined error text. -/
theorem claim_C8_witness :
    (setup_bot
        { okEnv with
            updatePluginPlaces := .ok [("p1", "e1"), ("p2", "e2")] }
        "text" goodConfig none).1 =
      .returned
        { emptyBot with
            storage := some (Value.vObj "storage"),
            repoManager := some (Value.vObj "repo_manager"),
            pluginManager := some (Value.vObj "botpm"),
            backendStorageInitialized := true,
            pluginErrorsDuringStartup := some "e1\ne2" } :=
  (claim_C8
    { okEnv with updatePluginPlaces := .ok [("p1", "e1"), ("p2", "e2")] }
    "text" goodConfig (bcdFinal goodConfig) (Value.vStr "/data") Value.vNone
    (Value.vObj "storage") (Value.vObj "repo_manager") (Value.vObj "botpm")
    emptyBot [("p1", "e1"), ("p2", "e2")]
    rfl rfl rfl rfl rfl rfl rfl rfl rfl rfl rfl rfl
    (List.cons_ne_nil _ _)).1

end Errbot
